import Mathlib

/-!
Shallow embedding of `csi/util.go` from the longhorn-manager repository:
the mount-point lifecycle engine (`ensureMountPoint`, `syncMountPointDirectory`,
`unmount`, `ensureDirectory`, `getFilesystemStatistics`) and the volume
parameter resolver (`getVolumeOptions`, `updateVolumeParamsForBackingImage`,
`requiresSharedAccess`).

Filesystem and mounter side effects are modelled by explicit environment
records: each record field is the outcome the operating system / mount backend
would produce for the corresponding call, and the Lean functions reproduce the
Go control flow over those outcomes.  Go errors are modelled as `Option`
values (`none` = nil); `fmt.Errorf` / `errors.Wrap` become string formatting.
-/

/-- Whether `sub` occurs as a contiguous run inside `l`. -/
def listContains (sub : List Char) : List Char → Bool
  | [] => sub.isPrefixOf []
  | c :: cs => sub.isPrefixOf (c :: cs) || listContains sub cs

/-- Go `strings.Contains s sub`: exact substring test. -/
def strContains (s sub : String) : Bool :=
  listContains sub.toList s.toList

/-- Classification of a Go `error` value as consumed by `os.IsNotExist` and
`mount.IsCorruptedMnt`: a not-exist error, a corrupted-mount error, or any
other error. -/
inductive GoErrKind where
  | notExist
  | corrupted
  | generic
deriving DecidableEq, Repr

/-- A non-nil Go error: its classification plus its `Error()` text. -/
structure GoErr where
  kind : GoErrKind
  msg : String
deriving DecidableEq, Repr

/-- Go `os.IsNotExist err` for a possibly-nil error. -/
def osIsNotExist : Option GoErr → Bool
  | some e => e.kind == .notExist
  | none => false

/-- Go `mount.IsCorruptedMnt err` for a possibly-nil error
(`IsCorruptedMnt(nil)` is false). -/
def isCorruptedMnt : Option GoErr → Bool
  | some e => e.kind == .corrupted
  | none => false

/-- The text `%v` prints for a possibly-nil error (nil prints `<nil>`). -/
def errText : Option GoErr → String
  | some e => e.msg
  | none => "<nil>"

/-- Outcome of `d.Readdirnames(1)` inside the health probe: an entry was
returned, `io.EOF` (empty directory), or a real error. -/
inductive ReadDirResult where
  | ok
  | eof
  | err (msg : String)
deriving DecidableEq, Repr

/-- Environment for one run of `syncMountPointDirectory`: the outcome of each
filesystem call it performs, in program order. -/
structure SyncEnv where
  /-- error of `os.OpenFile(targetPath, os.O_SYNC, 0750)` -/
  openDir : Option String
  /-- outcome of `d.Readdirnames(1)` -/
  readDir : ReadDirResult
  /-- error of opening the sentinel temp file for create/read-write/sync/truncate -/
  openTemp : Option String
  /-- error of `f.WriteString(tempFile)` -/
  writeTemp : Option String
deriving Repr

/-- `syncMountPointDirectory` (csi/util.go): open the directory, enumerate one
entry (tolerating `io.EOF`), then create and write a sentinel file; the first
failing step's error is returned, `none` on success.  Closing and removing the
sentinel file happen in deferred cleanup whose errors are only logged. -/
def syncMountPointDirectory (env : SyncEnv) : Option String :=
  match env.openDir with
  | some e => some e
  | none =>
    match env.readDir with
    | .err e => some e
    | _ =>
      match env.openTemp with
      | some e => some e
      | none =>
        match env.writeTemp with
        | some e => some e
        | none => none

/-- `defaultForceUmountTimeout` (csi/util.go): 30 seconds, here in seconds. -/
def defaultForceUmountTimeoutSeconds : Nat := 30

/-- Environment for `unmount`: whether the mounter implements
`mount.MounterForceUnmounter`, and the raw error each unmount syscall variant
would produce (for the forced variant, as a function of the timeout passed). -/
structure UnmountEnv where
  supportsForceUnmount : Bool
  /-- raw error of `forceUnmounter.UnmountWithForce(path, timeout)` -/
  unmountWithForce : Nat → Option String
  /-- raw error of `mounter.Unmount(path)` -/
  unmountPlain : Option String

/-- The raw unmount syscall performed by `unmount`: forced with the default
timeout when the mounter supports it, plain otherwise. -/
def unmountSyscall (env : UnmountEnv) : Option String :=
  if env.supportsForceUnmount then
    env.unmountWithForce defaultForceUmountTimeoutSeconds
  else
    env.unmountPlain

/-- `unmount` (csi/util.go): perform the (forced or plain) unmount; a nil
error, or an error whose text contains "not mounted" or
"no mount point specified", is success; any other error is returned as is. -/
def unmount (env : UnmountEnv) : Option String :=
  match unmountSyscall env with
  | none => none
  | some e =>
    if strContains e "not mounted" || strContains e "no mount point specified" then
      none
    else
      some e

/-- Environment for `ensureMountPoint`: the result of
`mounter.IsMountPoint(path)`, the error `os.MkdirAll(path, mode)` would
produce for a given mode, the health-probe environment, and the unmount
environment. -/
structure MountEnv where
  /-- result `(isMnt, err)` of `mounter.IsMountPoint(path)` -/
  isMountPoint : Bool × Option GoErr
  /-- error of `os.MkdirAll(path, mode)` as a function of the mode -/
  mkdirAll : Nat → Option GoErr
  sync : SyncEnv
  unmountEnv : UnmountEnv

/-- `ensureMountPoint` (csi/util.go): if the path does not exist, create it
with mode 0750 and report not-mounted; otherwise, when the mount-table check
did not flag corruption, run the I/O health probe and treat its failure as
corruption; on corruption, `unmount` and return not-mounted with nil error,
or, when that unmount fails, a formatted error embedding the unmount error and
the mount-table check error.  Otherwise return the mount-table check result. -/
def ensureMountPoint (path : String) (env : MountEnv) : Bool × Option GoErr :=
  let isMnt := env.isMountPoint.1
  let err := env.isMountPoint.2
  if osIsNotExist err then
    (false, env.mkdirAll 0o750)
  else
    let isCorruptedMnt0 := isCorruptedMnt err
    let isCorruptedMnt1 :=
      if !isCorruptedMnt0 then
        (syncMountPointDirectory env.sync).isSome
      else
        isCorruptedMnt0
    if isCorruptedMnt1 then
      match unmount env.unmountEnv with
      | some unmountErr =>
        (false, some ⟨.generic,
          "failed to unmount corrupt mount point " ++ path ++
          " umount error: " ++ unmountErr ++ " eval error: " ++ errText err⟩)
      | none => (false, none)
    else
      (isMnt, err)

/-- Environment for `ensureDirectory`: the result of `os.Stat(path)` (on
success, whether the entry is a directory) and the error `os.MkdirAll(path,
mode)` would produce for a given mode. -/
structure DirEnv where
  /-- result of `os.Stat(path)`: on success, `fileInfo.IsDir()` -/
  stat : Except GoErr Bool
  /-- error of `os.MkdirAll(path, mode)` as a function of the mode -/
  mkdirAll : Nat → Option GoErr

/-- `os.ModePerm` = 0777. -/
def osModePerm : Nat := 0o777

/-- `ensureDirectory` (csi/util.go): stat the path; if absent, `MkdirAll` with
`os.ModePerm` and return `(true, nil)` on success; propagate other stat
errors; if the path is a directory return `(true, nil)`; if it exists but is
not a directory return a descriptive error. -/
def ensureDirectory (path : String) (env : DirEnv) : Bool × Option GoErr :=
  match env.stat with
  | .error e =>
    if e.kind == .notExist then
      match env.mkdirAll osModePerm with
      | some mkErr => (false, some mkErr)
      | none => (true, none)
    else
      (false, some e)
  | .ok isDir =>
    if isDir then
      (true, none)
    else
      (false, some ⟨.generic, "path " ++ path ++ " exists but is not a folder"⟩)

/-- Two's-complement wrap of an integer into the `int64` range, as Go's
64-bit integer arithmetic does on overflow. -/
def wrap64 (z : Int) : Int :=
  (z + 2 ^ 63) % 2 ^ 64 - 2 ^ 63

/-- Go's conversion `int64(u)` of a `uint64` value. -/
def toInt64 (n : Nat) : Int :=
  wrap64 n

/-- The fields of `unix.Statfs_t` (linux/amd64) read by
`getFilesystemStatistics`: `Bsize` is declared `int64`, the block and inode
counts `uint64`. -/
structure Statfs where
  Bsize : Int
  Blocks : Nat
  Bfree : Nat
  Bavail : Nat
  Files : Nat
  Ffree : Nat
deriving Repr

/-- The `volumeFilesystemStatistics` struct (csi/util.go), fields `int64`. -/
structure VolumeFilesystemStatistics where
  availableBytes : Int
  totalBytes : Int
  usedBytes : Int
  availableInodes : Int
  totalInodes : Int
  usedInodes : Int
deriving DecidableEq, Repr

/-- `getFilesystemStatistics` (csi/util.go): propagate a `unix.Statfs`
failure; otherwise convert block counts into bytes with `int64` arithmetic:
available = Bavail * Bsize, total = Blocks * Bsize,
used = (Blocks - Bfree) * Bsize, and inode counts
available = Ffree, total = Files, used = Files - Ffree. -/
def getFilesystemStatistics (statfsResult : Except GoErr Statfs) :
    Except GoErr VolumeFilesystemStatistics :=
  match statfsResult with
  | .error e => .error e
  | .ok s => .ok
    { availableBytes := wrap64 (toInt64 s.Bavail * s.Bsize)
      totalBytes := wrap64 (toInt64 s.Blocks * s.Bsize)
      usedBytes := wrap64 (wrap64 (toInt64 s.Blocks - toInt64 s.Bfree) * s.Bsize)
      availableInodes := toInt64 s.Ffree
      totalInodes := toInt64 s.Files
      usedInodes := wrap64 (toInt64 s.Files - toInt64 s.Ffree) }

/-- ASCII digit test, as Go's `strconv` base-10 parser accepts. -/
def isDigit (c : Char) : Bool :=
  48 ≤ c.toNat && c.toNat ≤ 57

/-- Base-10 value of a digit list. -/
def digitsToNat (ds : List Char) : Nat :=
  ds.foldl (fun acc c => acc * 10 + (c.toNat - 48)) 0

/-- Go `strconv.Atoi`, returned Go-style as `(value, error)`: optional sign
followed by at least one ASCII digit; out-of-`int64`-range values yield the
clamped value and a range error; syntax errors yield `0`. -/
def goAtoi (s : String) : Int × Option String :=
  let (sign, digits) :=
    match s.toList with
    | '+' :: rest => ((1 : Int), rest)
    | '-' :: rest => ((-1 : Int), rest)
    | rest => ((1 : Int), rest)
  if digits.isEmpty || !digits.all isDigit then
    (0, some ("strconv.Atoi: parsing \x22" ++ s ++ "\x22: invalid syntax"))
  else
    let v : Int := sign * digitsToNat digits
    if v < -(2 ^ 63) || 2 ^ 63 - 1 < v then
      ((if v < 0 then -(2 ^ 63) else 2 ^ 63 - 1),
        some ("strconv.Atoi: parsing \x22" ++ s ++ "\x22: value out of range"))
    else
      (v, none)

/-- Go `strconv.ParseBool`, returned Go-style as `(value, error)`. -/
def goParseBool (s : String) : Bool × Option String :=
  if s == "1" || s == "t" || s == "T" || s == "true" || s == "TRUE" || s == "True" then
    (true, none)
  else if s == "0" || s == "f" || s == "F" || s == "false" || s == "FALSE" || s == "False" then
    (false, none)
  else
    (false, some ("strconv.ParseBool: parsing \x22" ++ s ++ "\x22: invalid syntax"))

/-- `errors.Wrap err msg` from github.com/pkg/errors: nil stays nil,
otherwise the message is prefixed to the underlying error text. -/
def errorsWrap (e : Option String) (msg : String) : Option String :=
  e.map (fun s => msg ++ ": " ++ s)

/-- Modelled from the spec: `longhorn.AccessModeReadWriteMany`, the
multi-writer access mode constant of the out-of-scope longhorn API types
package. -/
def AccessModeReadWriteMany : String := "rwx"

/-- Modelled from the spec: `longhorn.AccessModeReadWriteOnce`, the
single-writer access mode constant of the out-of-scope longhorn API types
package. -/
def AccessModeReadWriteOnce : String := "rwo"

/-- Modelled from the spec: `longhorn.DataEngineTypeV1`, the baseline data
engine identifier of the out-of-scope longhorn API types package. -/
def DataEngineTypeV1 : String := "v1"

/-- Modelled from the spec: `longhorn.BackingImageParameterName`, the
backing-image name option key of the out-of-scope longhorn API types
package. -/
def BackingImageParameterName : String := "backingImageName"

/-- Modelled from the spec: `longhorn.BackingImageParameterDataSourceType`. -/
def BackingImageParameterDataSourceType : String := "backingImageDataSourceType"

/-- Modelled from the spec: `longhorn.BackingImageParameterChecksum`. -/
def BackingImageParameterChecksum : String := "backingImageChecksum"

/-- Modelled from the spec: `longhorn.BackingImageParameterDataSourceParameters`,
the key under which the remaining backing-image parameters are attached as one
JSON blob. -/
def BackingImageParameterDataSourceParameters : String :=
  "backingImageDataSourceParameters"

/-- `defaultStaleReplicaTimeout` (csi/util.go): 2880 minutes. -/
def defaultStaleReplicaTimeout : Int := 2880

/-- `defaultStorageClassDisableRevisionCounterParameter` (csi/util.go). -/
def defaultStorageClassDisableRevisionCounterParameter : Bool := true

/-- Modelled from the spec: one entry of the recurring-job selector list
(`longhornclient.VolumeRecurringJob`, defined in the out-of-scope backend
client package). -/
structure VolumeRecurringJob where
  name : String
  isGroup : Bool
deriving DecidableEq, Repr

/-- The fields of `longhornclient.Volume` written by `getVolumeOptions`; each
field starts at its Go zero value. -/
structure Volume where
  staleReplicaTimeout : Int := 0
  accessMode : String := ""
  migratable : Bool := false
  encrypted : Bool := false
  numberOfReplicas : Int := 0
  replicaAutoBalance : String := ""
  dataLocality : String := ""
  revisionCounterDisabled : Bool := false
  unmapMarkSnapChainRemoved : String := ""
  replicaSoftAntiAffinity : String := ""
  replicaZoneSoftAntiAffinity : String := ""
  replicaDiskSoftAntiAffinity : String := ""
  fromBackup : String := ""
  backupTargetName : String := ""
  dataSource : String := ""
  backingImage : String := ""
  recurringJobSelector : List VolumeRecurringJob := []
  diskSelector : List String := []
  nodeSelector : List String := []
  dataEngine : String := ""
  frontend : String := ""
  freezeFilesystemForSnapshot : String := ""
deriving DecidableEq, Repr

/-- Modelled from the spec: the domain validators of the out-of-scope `types`
package (`ValidateReplicaAutoBalance`, `ValidateDataLocality`,
`ValidateUnmapMarkSnapChainRemoved`, the three replica anti-affinity
validators, `ValidateFreezeFilesystemForSnapshot`) and `json.Unmarshal` into a
recurring-job list; the spec only says each value is checked against a fixed
enumerated set, so each is an abstract function returning an optional error. -/
structure ExternalValidators where
  validateReplicaAutoBalance : String → Option String
  validateDataLocality : String → Option String
  validateUnmapMarkSnapChainRemoved : String → String → Option String
  validateReplicaSoftAntiAffinity : String → Option String
  validateReplicaZoneSoftAntiAffinity : String → Option String
  validateReplicaDiskSoftAntiAffinity : String → Option String
  validateFreezeFilesystemForSnapshot : String → Option String
  parseRecurringJobSelector : String → Except String (List VolumeRecurringJob)

/-- A validator instantiation on which every value passes. -/
def trivialValidators : ExternalValidators where
  validateReplicaAutoBalance := fun _ => none
  validateDataLocality := fun _ => none
  validateUnmapMarkSnapChainRemoved := fun _ _ => none
  validateReplicaSoftAntiAffinity := fun _ => none
  validateReplicaZoneSoftAntiAffinity := fun _ => none
  validateReplicaDiskSoftAntiAffinity := fun _ => none
  validateFreezeFilesystemForSnapshot := fun _ => none
  parseRecurringJobSelector := fun _ => .ok []

/-- A flat Go `map[string]string`, as an association list. -/
abbrev StrMap := List (String × String)

/-- Go map read with `ok` flag: first binding of the key, if any. -/
def mapGet? : StrMap → String → Option String
  | [], _ => none
  | (k, v) :: rest, key => if k == key then some v else mapGet? rest key

/-- Go map read without `ok` flag: the zero value "" when the key is absent. -/
def mapGet (m : StrMap) (key : String) : String :=
  (mapGet? m key).getD ""

/-- Go `delete(m, key)`. -/
def mapDelete (m : StrMap) (key : String) : StrMap :=
  m.filter (fun p => p.1 != key)

/-- Go map write `m[key] = v`. -/
def mapSet (m : StrMap) (key v : String) : StrMap :=
  mapDelete m key ++ [(key, v)]

/-- Lines 99-108 of csi/util.go: parse `staleReplicaTimeout` when present,
then replace a non-positive value by the default. -/
def stepStaleReplicaTimeout (volOptions : StrMap) (vol : Volume) :
    Except (Option String) Volume :=
  let afterParse : Except (Option String) Volume :=
    match mapGet? volOptions "staleReplicaTimeout" with
    | some s =>
      let r := goAtoi s
      if r.2.isSome then
        .error (errorsWrap r.2 "invalid parameter staleReplicaTimeout")
      else
        .ok { vol with staleReplicaTimeout := r.1 }
    | none => .ok vol
  match afterParse with
  | .error e => .error e
  | .ok v =>
    if v.staleReplicaTimeout ≤ 0 then
      .ok { v with staleReplicaTimeout := defaultStaleReplicaTimeout }
    else
      .ok v

/-- Lines 110-121 of csi/util.go: parse `share` when present and set the
access mode accordingly. -/
def stepShare (volOptions : StrMap) (vol : Volume) : Except (Option String) Volume :=
  match mapGet? volOptions "share" with
  | none => .ok vol
  | some s =>
    let r := goParseBool s
    if r.2.isSome then
      .error (errorsWrap r.2 "invalid parameter share")
    else if r.1 then
      .ok { vol with accessMode := AccessModeReadWriteMany }
    else
      .ok { vol with accessMode := AccessModeReadWriteOnce }

/-- Lines 123-136 of csi/util.go: parse `migratable` when present; when it is
true but the access mode is not ReadWriteMany, log, write "false" back into
the options map (unobservable afterwards: the key is not read again) and
downgrade to false. -/
def stepMigratable (volOptions : StrMap) (vol : Volume) : Except (Option String) Volume :=
  match mapGet? volOptions "migratable" with
  | none => .ok vol
  | some s =>
    let r := goParseBool s
    if r.2.isSome then
      .error (errorsWrap r.2 "invalid parameter migratable")
    else
      let isMigratable :=
        if r.1 && !(vol.accessMode == AccessModeReadWriteMany) then false else r.1
      .ok { vol with migratable := isMigratable }

/-- Lines 138-144 of csi/util.go: parse `encrypted` when present. -/
def stepEncrypted (volOptions : StrMap) (vol : Volume) : Except (Option String) Volume :=
  match mapGet? volOptions "encrypted" with
  | none => .ok vol
  | some s =>
    let r := goParseBool s
    if r.2.isSome then
      .error (errorsWrap r.2 "invalid parameter encrypted")
    else
      .ok { vol with encrypted := r.1 }

/-- Lines 146-152 of csi/util.go: parse `numberOfReplicas` when present; the
guard fires on a parse error or a negative value, and wraps the parse error
(which is nil in the negative-value case, and `errors.Wrap(nil, msg)` is
nil). -/
def stepNumberOfReplicas (volOptions : StrMap) (vol : Volume) :
    Except (Option String) Volume :=
  match mapGet? volOptions "numberOfReplicas" with
  | none => .ok vol
  | some s =>
    let r := goAtoi s
    if r.2.isSome || r.1 < 0 then
      .error (errorsWrap r.2 "invalid parameter numberOfReplicas")
    else
      .ok { vol with numberOfReplicas := r.1 }

/-- Lines 154-160 of csi/util.go: validate and store `replicaAutoBalance`. -/
def stepReplicaAutoBalance (volOptions : StrMap) (ext : ExternalValidators)
    (vol : Volume) : Except (Option String) Volume :=
  match mapGet? volOptions "replicaAutoBalance" with
  | none => .ok vol
  | some s =>
    match ext.validateReplicaAutoBalance s with
    | some e => .error (errorsWrap (some e) "invalid parameter replicaAutoBalance")
    | none => .ok { vol with replicaAutoBalance := s }

/-- Lines 162-167 of csi/util.go: validate and store `dataLocality`. -/
def stepDataLocality (volOptions : StrMap) (ext : ExternalValidators)
    (vol : Volume) : Except (Option String) Volume :=
  match mapGet? volOptions "dataLocality" with
  | none => .ok vol
  | some s =>
    match ext.validateDataLocality s with
    | some e => .error (errorsWrap (some e) "invalid parameter dataLocality")
    | none => .ok { vol with dataLocality := s }

/-- Lines 169-177 of csi/util.go: parse `disableRevisionCounter` when present,
default to true when absent. -/
def stepRevisionCounter (volOptions : StrMap) (vol : Volume) :
    Except (Option String) Volume :=
  match mapGet? volOptions "disableRevisionCounter" with
  | none =>
    .ok { vol with revisionCounterDisabled := defaultStorageClassDisableRevisionCounterParameter }
  | some s =>
    let r := goParseBool s
    if r.2.isSome then
      .error (errorsWrap r.2 "invalid parameter disableRevisionCounter")
    else
      .ok { vol with revisionCounterDisabled := r.1 }

/-- Lines 179-184 of csi/util.go: validate `unmapMarkSnapChainRemoved` against
the volume's current data-engine field (still its zero value "" here, since
the data-engine field is only assigned further down). -/
def stepUnmapMarkSnapChainRemoved (volOptions : StrMap) (ext : ExternalValidators)
    (vol : Volume) : Except (Option String) Volume :=
  match mapGet? volOptions "unmapMarkSnapChainRemoved" with
  | none => .ok vol
  | some s =>
    match ext.validateUnmapMarkSnapChainRemoved vol.dataEngine s with
    | some e => .error (errorsWrap (some e) "invalid parameter unmapMarkSnapChainRemoved")
    | none => .ok { vol with unmapMarkSnapChainRemoved := s }

/-- Lines 186-191 of csi/util.go: validate and store `replicaSoftAntiAffinity`. -/
def stepReplicaSoftAntiAffinity (volOptions : StrMap) (ext : ExternalValidators)
    (vol : Volume) : Except (Option String) Volume :=
  match mapGet? volOptions "replicaSoftAntiAffinity" with
  | none => .ok vol
  | some s =>
    match ext.validateReplicaSoftAntiAffinity s with
    | some e => .error (errorsWrap (some e) "invalid parameter replicaSoftAntiAffinity")
    | none => .ok { vol with replicaSoftAntiAffinity := s }

/-- Lines 193-198 of csi/util.go: validate and store
`replicaZoneSoftAntiAffinity`. -/
def stepReplicaZoneSoftAntiAffinity (volOptions : StrMap) (ext : ExternalValidators)
    (vol : Volume) : Except (Option String) Volume :=
  match mapGet? volOptions "replicaZoneSoftAntiAffinity" with
  | none => .ok vol
  | some s =>
    match ext.validateReplicaZoneSoftAntiAffinity s with
    | some e => .error (errorsWrap (some e) "invalid parameter replicaZoneSoftAntiAffinity")
    | none => .ok { vol with replicaZoneSoftAntiAffinity := s }

/-- Lines 200-205 of csi/util.go: validate and store
`replicaDiskSoftAntiAffinity`. -/
def stepReplicaDiskSoftAntiAffinity (volOptions : StrMap) (ext : ExternalValidators)
    (vol : Volume) : Except (Option String) Volume :=
  match mapGet? volOptions "replicaDiskSoftAntiAffinity" with
  | none => .ok vol
  | some s =>
    match ext.validateReplicaDiskSoftAntiAffinity s with
    | some e => .error (errorsWrap (some e) "invalid parameter replicaDiskSoftAntiAffinity")
    | none => .ok { vol with replicaDiskSoftAntiAffinity := s }

/-- Lines 207-209 of csi/util.go: copy `fromBackup` when present. -/
def stepFromBackup (volOptions : StrMap) (vol : Volume) : Volume :=
  match mapGet? volOptions "fromBackup" with
  | some s => { vol with fromBackup := s }
  | none => vol

/-- Lines 211-213 of csi/util.go: copy `backupTargetName` when present. -/
def stepBackupTargetName (volOptions : StrMap) (vol : Volume) : Volume :=
  match mapGet? volOptions "backupTargetName" with
  | some s => { vol with backupTargetName := s }
  | none => vol

/-- Lines 215-217 of csi/util.go: copy `dataSource` when present. -/
def stepDataSource (volOptions : StrMap) (vol : Volume) : Volume :=
  match mapGet? volOptions "dataSource" with
  | some s => { vol with dataSource := s }
  | none => vol

/-- Lines 219-221 of csi/util.go: copy the backing-image name key when
present. -/
def stepBackingImage (volOptions : StrMap) (vol : Volume) : Volume :=
  match mapGet? volOptions BackingImageParameterName with
  | some s => { vol with backingImage := s }
  | none => vol

/-- Lines 223-230 of csi/util.go: JSON-decode `recurringJobSelector` when
present. -/
def stepRecurringJobSelector (volOptions : StrMap) (ext : ExternalValidators)
    (vol : Volume) : Except (Option String) Volume :=
  match mapGet? volOptions "recurringJobSelector" with
  | none => .ok vol
  | some s =>
    match ext.parseRecurringJobSelector s with
    | .error e => .error (errorsWrap (some e) "invalid json format of recurringJobSelector")
    | .ok sel => .ok { vol with recurringJobSelector := sel }

/-- Lines 232-234 of csi/util.go: split `diskSelector` on commas. -/
def stepDiskSelector (volOptions : StrMap) (vol : Volume) : Volume :=
  match mapGet? volOptions "diskSelector" with
  | some s => { vol with diskSelector := s.splitOn "," }
  | none => vol

/-- Lines 236-238 of csi/util.go: split `nodeSelector` on commas. -/
def stepNodeSelector (volOptions : StrMap) (vol : Volume) : Volume :=
  match mapGet? volOptions "nodeSelector" with
  | some s => { vol with nodeSelector := s.splitOn "," }
  | none => vol

/-- Lines 240-243 of csi/util.go: set the data engine to the baseline
identifier, then override it with the `dataEngine` option when present. -/
def stepDataEngine (volOptions : StrMap) (vol : Volume) : Volume :=
  let vol := { vol with dataEngine := DataEngineTypeV1 }
  match mapGet? volOptions "dataEngine" with
  | some s => { vol with dataEngine := s }
  | none => vol

/-- Lines 245-247 of csi/util.go: copy `frontend` when present. -/
def stepFrontend (volOptions : StrMap) (vol : Volume) : Volume :=
  match mapGet? volOptions "frontend" with
  | some s => { vol with frontend := s }
  | none => vol

/-- Lines 249-254 of csi/util.go: validate and store
`freezeFilesystemForSnapshot`. -/
def stepFreezeFilesystemForSnapshot (volOptions : StrMap) (ext : ExternalValidators)
    (vol : Volume) : Except (Option String) Volume :=
  match mapGet? volOptions "freezeFilesystemForSnapshot" with
  | none => .ok vol
  | some s =>
    match ext.validateFreezeFilesystemForSnapshot s with
    | some e => .error (errorsWrap (some e) "invalid parameter freezeFilesystemForSnapshot")
    | none => .ok { vol with freezeFilesystemForSnapshot := s }

/-- `getVolumeOptions` (csi/util.go), as the sequence of its per-key blocks in
source order; `volumeID` is consumed only by the log line of the migratable
downgrade.  The error type `Option String` mirrors Go's nilable `error`
result, so the `errors.Wrap(nil, ...)` pitfall of the numberOfReplicas block
is representable. -/
def getVolumeOptionsE (volumeID : String) (volOptions : StrMap)
    (ext : ExternalValidators) : Except (Option String) Volume := do
  let _ := volumeID
  let vol : Volume := {}
  let vol ← stepStaleReplicaTimeout volOptions vol
  let vol ← stepShare volOptions vol
  let vol ← stepMigratable volOptions vol
  let vol ← stepEncrypted volOptions vol
  let vol ← stepNumberOfReplicas volOptions vol
  let vol ← stepReplicaAutoBalance volOptions ext vol
  let vol ← stepDataLocality volOptions ext vol
  let vol ← stepRevisionCounter volOptions vol
  let vol ← stepUnmapMarkSnapChainRemoved volOptions ext vol
  let vol ← stepReplicaSoftAntiAffinity volOptions ext vol
  let vol ← stepReplicaZoneSoftAntiAffinity volOptions ext vol
  let vol ← stepReplicaDiskSoftAntiAffinity volOptions ext vol
  let vol := stepFromBackup volOptions vol
  let vol := stepBackupTargetName volOptions vol
  let vol := stepDataSource volOptions vol
  let vol := stepBackingImage volOptions vol
  let vol ← stepRecurringJobSelector volOptions ext vol
  let vol := stepDiskSelector volOptions vol
  let vol := stepNodeSelector volOptions vol
  let vol := stepDataEngine volOptions vol
  let vol := stepFrontend volOptions vol
  let vol ← stepFreezeFilesystemForSnapshot volOptions ext vol
  return vol

/-- `getVolumeOptions` with its Go result shape `(*longhornclient.Volume,
error)`: both components are nilable, and the numberOfReplicas pitfall
produces `(nil, nil)`. -/
def getVolumeOptions (volumeID : String) (volOptions : StrMap)
    (ext : ExternalValidators) : Option Volume × Option String :=
  match getVolumeOptionsE volumeID volOptions ext with
  | .ok vol => (some vol, none)
  | .error e => (none, e)

/-- JSON escaping of one character inside a quoted string (the cases relevant
to plain option values; Go additionally escapes control and HTML characters). -/
def jsonEscapeChar (c : Char) : String :=
  if c == '\x22' then "\\\x22"
  else if c == '\\' then "\\\\"
  else if c == '\n' then "\\n"
  else if c == '\r' then "\\r"
  else if c == '\t' then "\\t"
  else String.singleton c

/-- A JSON-quoted string. -/
def jsonQuote (s : String) : String :=
  "\x22" ++ String.join (s.toList.map jsonEscapeChar) ++ "\x22"

/-- Insertion of one entry into a key-sorted association list. -/
def insertSortedByKey (p : String × String) : StrMap → StrMap
  | [] => [p]
  | q :: rest =>
    if decide (p.1 ≤ q.1) then p :: q :: rest else q :: insertSortedByKey p rest

/-- Association list sorted by key, as Go sorts map keys when marshalling. -/
def sortByKey (m : StrMap) : StrMap :=
  m.foldr insertSortedByKey []

/-- Modelled from the spec: `json.Marshal` of a `map[string]string` (the
encoding/json library is outside this source file) — one JSON object with the
keys in sorted order, every key and value quoted. -/
def marshalStringMap (m : StrMap) : String :=
  let entries := (sortByKey m).map (fun p => jsonQuote p.1 ++ ":" ++ jsonQuote p.2)
  "\x7b" ++ String.intercalate "," entries ++ "\x7d"

/-- The `BackingImageInfoFields` list of `updateVolumeParamsForBackingImage`. -/
def backingImageInfoFields : List String :=
  [BackingImageParameterName, BackingImageParameterDataSourceType,
    BackingImageParameterChecksum]

/-- One iteration of the lifting loop of `updateVolumeParamsForBackingImage`:
copy the field from the backing-image map into the volume-parameter map (""
when absent, Go's zero-value read) and delete it from the backing-image map. -/
def liftBackingImageField (acc : StrMap × StrMap) (v : String) : StrMap × StrMap :=
  (mapSet acc.1 v (mapGet acc.2 v), mapDelete acc.2 v)

/-- `updateVolumeParamsForBackingImage` (csi/util.go): lift the three
backing-image info fields into the volume-parameter map, removing them from
the backing-image map, then attach the JSON serialization of the remaining
backing-image map under the data-source-parameters key.  Returned as the
post-state of the two maps the Go function mutates in place. -/
def updateVolumeParamsForBackingImage (volumeParameters backingImageParameters : StrMap) :
    StrMap × StrMap :=
  let acc := backingImageInfoFields.foldl liftBackingImageField
    (volumeParameters, backingImageParameters)
  (mapSet acc.1 BackingImageParameterDataSourceParameters (marshalStringMap acc.2),
    acc.2)

/-- `csi.VolumeCapability_AccessMode_Mode`: the CSI access mode enum. -/
inductive CSIAccessModeMode where
  | UNKNOWN
  | SINGLE_NODE_WRITER
  | SINGLE_NODE_READER_ONLY
  | MULTI_NODE_READER_ONLY
  | MULTI_NODE_SINGLE_WRITER
  | MULTI_NODE_MULTI_WRITER
  | SINGLE_NODE_SINGLE_WRITER
  | SINGLE_NODE_MULTI_WRITER
deriving DecidableEq, Repr

/-- The part of `csi.VolumeCapability` read by `requiresSharedAccess`:
`cap.AccessMode.Mode`. -/
structure VolumeCapability where
  accessModeMode : CSIAccessModeMode
deriving DecidableEq, Repr

/-- `requiresSharedAccess` (csi/util.go): true when the (possibly nil) volume
is already ReadWriteMany or migratable, or when the (possibly nil) requested
capability asks for one of the three multi-node modes. -/
def requiresSharedAccess (vol : Option Volume) (cp : Option VolumeCapability) : Bool :=
  let isSharedVolume :=
    match vol with
    | some v => v.accessMode == AccessModeReadWriteMany || v.migratable
    | none => false
  let mode :=
    match cp with
    | some c => c.accessModeMode
    | none => CSIAccessModeMode.UNKNOWN
  isSharedVolume ||
    mode == CSIAccessModeMode.MULTI_NODE_READER_ONLY ||
    mode == CSIAccessModeMode.MULTI_NODE_SINGLE_WRITER ||
    mode == CSIAccessModeMode.MULTI_NODE_MULTI_WRITER

/-- A mount backend whose forced unmount reports an already-unmounted path. -/
def c8NotMountedEnv : UnmountEnv where
  supportsForceUnmount := true
  unmountWithForce := fun _ => some "umount: /x: not mounted."
  unmountPlain := none

/-- A mount backend without forced unmount whose plain unmount fails. -/
def c8BusyEnv : UnmountEnv where
  supportsForceUnmount := false
  unmountWithForce := fun _ => none
  unmountPlain := some "device is busy"

/-- A probe environment in which opening the sentinel file fails with an I/O
error (the disconnected-mount scenario). -/
def c1SyncEnv : SyncEnv where
  openDir := none
  readDir := .ok
  openTemp := some "input/output error"
  writeTemp := none

/-- A mount environment in which the mount-table check succeeds, the I/O
health probe fails, and the forced unmount fails. -/
def c1Env : MountEnv where
  isMountPoint := (true, none)
  mkdirAll := fun _ => none
  sync := c1SyncEnv
  unmountEnv :=
    { supportsForceUnmount := true, unmountWithForce := fun _ => some "target is busy",
      unmountPlain := none }

/-- The error text `ensureMountPoint` produces for `c1Env` at path /mnt/vol. -/
def c1ErrMsg : String :=
  "failed to unmount corrupt mount point /mnt/vol umount error: target is busy eval error: <nil>"

/-- A healthy probe environment. -/
def healthySyncEnv : SyncEnv where
  openDir := none
  readDir := .eof
  openTemp := none
  writeTemp := none

/-- A mount environment for a path that does not exist and whose directory
creation succeeds. -/
def c3AbsentEnv : MountEnv where
  isMountPoint := (false, some ⟨.notExist, "no such file or directory"⟩)
  mkdirAll := fun _ => none
  sync := healthySyncEnv
  unmountEnv :=
    { supportsForceUnmount := false, unmountWithForce := fun _ => none, unmountPlain := none }

/-- A directory environment for a path that exists and is a directory. -/
def dirExistingEnv : DirEnv where
  stat := .ok true
  mkdirAll := fun _ => none

/-- A directory environment for an absent path with succeeding creation. -/
def dirFreshEnv : DirEnv where
  stat := .error ⟨.notExist, "no such file or directory"⟩
  mkdirAll := fun _ => none

/-- A directory environment for a path that exists but is a regular file. -/
def dirFileEnv : DirEnv where
  stat := .ok false
  mkdirAll := fun _ => none

/-- A synthetic statfs fixture with reserved blocks (Bfree > Bavail). -/
def c9Statfs : Statfs where
  Bsize := 4096
  Blocks := 1000
  Bfree := 200
  Bavail := 150
  Files := 100
  Ffree := 40


theorem exceptBind_ok {α β ε : Type} (a : α) (f : α → Except ε β) :
    (Except.ok a : Except ε α) >>= f = f a := rfl

theorem exceptBind_error {α β ε : Type} (e : ε) (f : α → Except ε β) :
    (Except.error e : Except ε α) >>= f = Except.error e := rfl

theorem stepStaleReplicaTimeout_ok {opts : StrMap} {vol vol' : Volume}
    (h : stepStaleReplicaTimeout opts vol = .ok vol') :
    ∃ n, vol' = { vol with staleReplicaTimeout := n } ∧
      (mapGet? opts "staleReplicaTimeout" = none → vol.staleReplicaTimeout ≤ 0 →
        n = defaultStaleReplicaTimeout) ∧
      (∀ s, mapGet? opts "staleReplicaTimeout" = some s → (goAtoi s).2 = none →
        (goAtoi s).1 ≤ 0 → n = defaultStaleReplicaTimeout) := by
  cases hm : mapGet? opts "staleReplicaTimeout" with
  | none =>
    simp only [stepStaleReplicaTimeout, hm] at h
    split at h
    · rw [Except.ok.injEq] at h
      exact ⟨defaultStaleReplicaTimeout, h.symm, fun _ _ => rfl, fun s hs => by cases hs⟩
    next hpos =>
      rw [Except.ok.injEq] at h
      exact ⟨vol.staleReplicaTimeout, h.symm, fun _ hle => absurd hle hpos,
        fun s hs => by cases hs⟩
  | some s =>
    simp only [stepStaleReplicaTimeout, hm] at h
    cases hA : (goAtoi s).2 with
    | some e =>
      simp only [hA, Option.isSome_some, if_true] at h
      exact Except.noConfusion h
    | none =>
      simp only [hA, Option.isSome_none, Bool.false_eq_true, if_false] at h
      split at h
      next hle =>
        rw [Except.ok.injEq] at h
        exact ⟨defaultStaleReplicaTimeout, h.symm, fun hn => Option.noConfusion hn,
          fun t ht _ _ => rfl⟩
      next hpos =>
        rw [Except.ok.injEq] at h
        refine ⟨(goAtoi s).1, h.symm, fun hn => Option.noConfusion hn, fun t ht _ hle => ?_⟩
        cases ht
        exact absurd (by simpa using hle) hpos


theorem stepShare_ok {opts : StrMap} {vol vol' : Volume}
    (h : stepShare opts vol = .ok vol') :
    ∃ a, vol' = { vol with accessMode := a } ∧
      (mapGet? opts "share" = none → a = vol.accessMode) ∧
      (∀ s, mapGet? opts "share" = some s → goParseBool s = (false, none) →
        a = AccessModeReadWriteOnce) := by
  cases hm : mapGet? opts "share" with
  | none =>
    simp only [stepShare, hm, Except.ok.injEq] at h
    exact ⟨vol.accessMode, h.symm, fun _ => rfl, fun s hs => Option.noConfusion hs⟩
  | some s =>
    simp only [stepShare, hm] at h
    cases hp : goParseBool s with
    | mk b err =>
      simp only [hp] at h
      cases err with
      | some e =>
        simp only [Option.isSome_some, if_true] at h
        exact Except.noConfusion h
      | none =>
        simp only [Option.isSome_none, Bool.false_eq_true, if_false] at h
        cases b with
        | true =>
          simp only [if_true] at h
          rw [Except.ok.injEq] at h
          refine ⟨AccessModeReadWriteMany, h.symm, fun hn => Option.noConfusion hn,
            fun t ht hb => ?_⟩
          cases ht
          rw [hp] at hb
          simp at hb
        | false =>
          simp only [Bool.false_eq_true, if_false] at h
          rw [Except.ok.injEq] at h
          exact ⟨AccessModeReadWriteOnce, h.symm, fun hn => Option.noConfusion hn,
            fun t ht hb => rfl⟩

theorem stepMigratable_ok {opts : StrMap} {vol vol' : Volume}
    (h : stepMigratable opts vol = .ok vol') :
    ∃ b, vol' = { vol with migratable := b } ∧
      (∀ s, mapGet? opts "migratable" = some s → goParseBool s = (true, none) →
        vol.accessMode ≠ AccessModeReadWriteMany → b = false) := by
  cases hm : mapGet? opts "migratable" with
  | none =>
    simp only [stepMigratable, hm, Except.ok.injEq] at h
    exact ⟨vol.migratable, h.symm, fun s hs => Option.noConfusion hs⟩
  | some s =>
    simp only [stepMigratable, hm] at h
    cases hp : goParseBool s with
    | mk b0 err =>
      simp only [hp] at h
      cases err with
      | some e =>
        simp only [Option.isSome_some, if_true] at h
        exact Except.noConfusion h
      | none =>
        simp only [Option.isSome_none, Bool.false_eq_true, if_false] at h
        rw [Except.ok.injEq] at h
        refine ⟨_, h.symm, fun t ht hb hacc => ?_⟩
        cases ht
        rw [hp] at hb
        injection hb with hb1 hb2
        subst hb1
        simp [hacc]

theorem stepNumberOfReplicas_ok {opts : StrMap} {vol vol' : Volume}
    (h : stepNumberOfReplicas opts vol = .ok vol') :
    ∃ n, vol' = { vol with numberOfReplicas := n } := by
  cases hm : mapGet? opts "numberOfReplicas" with
  | none =>
    simp only [stepNumberOfReplicas, hm, Except.ok.injEq] at h
    exact ⟨vol.numberOfReplicas, h.symm⟩
  | some s =>
    simp only [stepNumberOfReplicas, hm] at h
    split at h
    · exact Except.noConfusion h
    · rw [Except.ok.injEq] at h
      exact ⟨(goAtoi s).1, h.symm⟩

theorem stepEncrypted_ok {opts : StrMap} {vol vol' : Volume}
    (h : stepEncrypted opts vol = .ok vol') :
    ∃ b, vol' = { vol with encrypted := b } := by
  cases hm : mapGet? opts "encrypted" with
  | none =>
    simp only [stepEncrypted, hm, Except.ok.injEq] at h
    exact ⟨vol.encrypted, h.symm⟩
  | some s =>
    simp only [stepEncrypted, hm] at h
    split at h
    · exact Except.noConfusion h
    · rw [Except.ok.injEq] at h
      exact ⟨(goParseBool s).1, h.symm⟩

theorem stepRevisionCounter_ok {opts : StrMap} {vol vol' : Volume}
    (h : stepRevisionCounter opts vol = .ok vol') :
    ∃ b, vol' = { vol with revisionCounterDisabled := b } ∧
      (mapGet? opts "disableRevisionCounter" = none → b = true) := by
  cases hm : mapGet? opts "disableRevisionCounter" with
  | none =>
    simp only [stepRevisionCounter, hm, Except.ok.injEq] at h
    exact ⟨defaultStorageClassDisableRevisionCounterParameter, h.symm, fun _ => rfl⟩
  | some s =>
    simp only [stepRevisionCounter, hm] at h
    split at h
    · exact Except.noConfusion h
    · rw [Except.ok.injEq] at h
      exact ⟨(goParseBool s).1, h.symm, fun hn => Option.noConfusion hn⟩

theorem stepReplicaAutoBalance_ok {opts : StrMap} {ext : ExternalValidators}
    {vol vol' : Volume} (h : stepReplicaAutoBalance opts ext vol = .ok vol') :
    ∃ s, vol' = { vol with replicaAutoBalance := s } := by
  cases hm : mapGet? opts "replicaAutoBalance" with
  | none =>
    simp only [stepReplicaAutoBalance, hm, Except.ok.injEq] at h
    exact ⟨vol.replicaAutoBalance, h.symm⟩
  | some s =>
    simp only [stepReplicaAutoBalance, hm] at h
    cases hv : ext.validateReplicaAutoBalance s with
    | none =>
      simp only [hv, Except.ok.injEq] at h
      exact ⟨s, h.symm⟩
    | some e =>
      simp only [hv] at h
      exact Except.noConfusion h

theorem stepDataLocality_ok {opts : StrMap} {ext : ExternalValidators}
    {vol vol' : Volume} (h : stepDataLocality opts ext vol = .ok vol') :
    ∃ s, vol' = { vol with dataLocality := s } := by
  cases hm : mapGet? opts "dataLocality" with
  | none =>
    simp only [stepDataLocality, hm, Except.ok.injEq] at h
    exact ⟨vol.dataLocality, h.symm⟩
  | some s =>
    simp only [stepDataLocality, hm] at h
    cases hv : ext.validateDataLocality s with
    | none =>
      simp only [hv, Except.ok.injEq] at h
      exact ⟨s, h.symm⟩
    | some e =>
      simp only [hv] at h
      exact Except.noConfusion h

theorem stepReplicaSoftAntiAffinity_ok {opts : StrMap} {ext : ExternalValidators}
    {vol vol' : Volume} (h : stepReplicaSoftAntiAffinity opts ext vol = .ok vol') :
    ∃ s, vol' = { vol with replicaSoftAntiAffinity := s } := by
  cases hm : mapGet? opts "replicaSoftAntiAffinity" with
  | none =>
    simp only [stepReplicaSoftAntiAffinity, hm, Except.ok.injEq] at h
    exact ⟨vol.replicaSoftAntiAffinity, h.symm⟩
  | some s =>
    simp only [stepReplicaSoftAntiAffinity, hm] at h
    cases hv : ext.validateReplicaSoftAntiAffinity s with
    | none =>
      simp only [hv, Except.ok.injEq] at h
      exact ⟨s, h.symm⟩
    | some e =>
      simp only [hv] at h
      exact Except.noConfusion h

theorem stepReplicaZoneSoftAntiAffinity_ok {opts : StrMap} {ext : ExternalValidators}
    {vol vol' : Volume} (h : stepReplicaZoneSoftAntiAffinity opts ext vol = .ok vol') :
    ∃ s, vol' = { vol with replicaZoneSoftAntiAffinity := s } := by
  cases hm : mapGet? opts "replicaZoneSoftAntiAffinity" with
  | none =>
    simp only [stepReplicaZoneSoftAntiAffinity, hm, Except.ok.injEq] at h
    exact ⟨vol.replicaZoneSoftAntiAffinity, h.symm⟩
  | some s =>
    simp only [stepReplicaZoneSoftAntiAffinity, hm] at h
    cases hv : ext.validateReplicaZoneSoftAntiAffinity s with
    | none =>
      simp only [hv, Except.ok.injEq] at h
      exact ⟨s, h.symm⟩
    | some e =>
      simp only [hv] at h
      exact Except.noConfusion h

theorem stepReplicaDiskSoftAntiAffinity_ok {opts : StrMap} {ext : ExternalValidators}
    {vol vol' : Volume} (h : stepReplicaDiskSoftAntiAffinity opts ext vol = .ok vol') :
    ∃ s, vol' = { vol with replicaDiskSoftAntiAffinity := s } := by
  cases hm : mapGet? opts "replicaDiskSoftAntiAffinity" with
  | none =>
    simp only [stepReplicaDiskSoftAntiAffinity, hm, Except.ok.injEq] at h
    exact ⟨vol.replicaDiskSoftAntiAffinity, h.symm⟩
  | some s =>
    simp only [stepReplicaDiskSoftAntiAffinity, hm] at h
    cases hv : ext.validateReplicaDiskSoftAntiAffinity s with
    | none =>
      simp only [hv, Except.ok.injEq] at h
      exact ⟨s, h.symm⟩
    | some e =>
      simp only [hv] at h
      exact Except.noConfusion h

theorem stepFreezeFilesystemForSnapshot_ok {opts : StrMap} {ext : ExternalValidators}
    {vol vol' : Volume} (h : stepFreezeFilesystemForSnapshot opts ext vol = .ok vol') :
    ∃ s, vol' = { vol with freezeFilesystemForSnapshot := s } := by
  cases hm : mapGet? opts "freezeFilesystemForSnapshot" with
  | none =>
    simp only [stepFreezeFilesystemForSnapshot, hm, Except.ok.injEq] at h
    exact ⟨vol.freezeFilesystemForSnapshot, h.symm⟩
  | some s =>
    simp only [stepFreezeFilesystemForSnapshot, hm] at h
    cases hv : ext.validateFreezeFilesystemForSnapshot s with
    | none =>
      simp only [hv, Except.ok.injEq] at h
      exact ⟨s, h.symm⟩
    | some e =>
      simp only [hv] at h
      exact Except.noConfusion h

theorem stepUnmapMarkSnapChainRemoved_ok {opts : StrMap} {ext : ExternalValidators}
    {vol vol' : Volume} (h : stepUnmapMarkSnapChainRemoved opts ext vol = .ok vol') :
    ∃ s, vol' = { vol with unmapMarkSnapChainRemoved := s } := by
  cases hm : mapGet? opts "unmapMarkSnapChainRemoved" with
  | none =>
    simp only [stepUnmapMarkSnapChainRemoved, hm, Except.ok.injEq] at h
    exact ⟨vol.unmapMarkSnapChainRemoved, h.symm⟩
  | some s =>
    simp only [stepUnmapMarkSnapChainRemoved, hm] at h
    cases hv : ext.validateUnmapMarkSnapChainRemoved vol.dataEngine s with
    | none =>
      simp only [hv, Except.ok.injEq] at h
      exact ⟨s, h.symm⟩
    | some e =>
      simp only [hv] at h
      exact Except.noConfusion h

theorem stepRecurringJobSelector_ok {opts : StrMap} {ext : ExternalValidators}
    {vol vol' : Volume} (h : stepRecurringJobSelector opts ext vol = .ok vol') :
    ∃ l, vol' = { vol with recurringJobSelector := l } := by
  cases hm : mapGet? opts "recurringJobSelector" with
  | none =>
    simp only [stepRecurringJobSelector, hm, Except.ok.injEq] at h
    exact ⟨vol.recurringJobSelector, h.symm⟩
  | some s =>
    simp only [stepRecurringJobSelector, hm] at h
    cases hp : ext.parseRecurringJobSelector s with
    | error e =>
      simp only [hp] at h
      exact Except.noConfusion h
    | ok l =>
      simp only [hp, Except.ok.injEq] at h
      exact ⟨l, h.symm⟩

theorem stepFromBackup_shape (opts : StrMap) (vol : Volume) :
    ∃ s, stepFromBackup opts vol = { vol with fromBackup := s } := by
  cases hm : mapGet? opts "fromBackup" with
  | none => exact ⟨vol.fromBackup, by simp only [stepFromBackup, hm]⟩
  | some s => exact ⟨s, by simp only [stepFromBackup, hm]⟩

theorem stepBackupTargetName_shape (opts : StrMap) (vol : Volume) :
    ∃ s, stepBackupTargetName opts vol = { vol with backupTargetName := s } := by
  cases hm : mapGet? opts "backupTargetName" with
  | none => exact ⟨vol.backupTargetName, by simp only [stepBackupTargetName, hm]⟩
  | some s => exact ⟨s, by simp only [stepBackupTargetName, hm]⟩

theorem stepDataSource_shape (opts : StrMap) (vol : Volume) :
    ∃ s, stepDataSource opts vol = { vol with dataSource := s } := by
  cases hm : mapGet? opts "dataSource" with
  | none => exact ⟨vol.dataSource, by simp only [stepDataSource, hm]⟩
  | some s => exact ⟨s, by simp only [stepDataSource, hm]⟩

theorem stepFrontend_shape (opts : StrMap) (vol : Volume) :
    ∃ s, stepFrontend opts vol = { vol with frontend := s } := by
  cases hm : mapGet? opts "frontend" with
  | none => exact ⟨vol.frontend, by simp only [stepFrontend, hm]⟩
  | some s => exact ⟨s, by simp only [stepFrontend, hm]⟩

theorem stepBackingImage_shape (opts : StrMap) (vol : Volume) :
    ∃ s, stepBackingImage opts vol = { vol with backingImage := s } := by
  cases hm : mapGet? opts BackingImageParameterName with
  | none => exact ⟨vol.backingImage, by simp only [stepBackingImage, hm]⟩
  | some s => exact ⟨s, by simp only [stepBackingImage, hm]⟩

theorem stepDiskSelector_shape (opts : StrMap) (vol : Volume) :
    ∃ l, stepDiskSelector opts vol = { vol with diskSelector := l } := by
  cases hm : mapGet? opts "diskSelector" with
  | none => exact ⟨vol.diskSelector, by simp only [stepDiskSelector, hm]⟩
  | some s => exact ⟨String.splitOn s ",", by simp only [stepDiskSelector, hm]⟩

theorem stepNodeSelector_shape (opts : StrMap) (vol : Volume) :
    ∃ l, stepNodeSelector opts vol = { vol with nodeSelector := l } := by
  cases hm : mapGet? opts "nodeSelector" with
  | none => exact ⟨vol.nodeSelector, by simp only [stepNodeSelector, hm]⟩
  | some s => exact ⟨String.splitOn s ",", by simp only [stepNodeSelector, hm]⟩

theorem stepDataEngine_shape (opts : StrMap) (vol : Volume) :
    ∃ s, stepDataEngine opts vol = { vol with dataEngine := s } ∧
      (mapGet? opts "dataEngine" = none → s = DataEngineTypeV1) := by
  cases hm : mapGet? opts "dataEngine" with
  | none =>
    refine ⟨DataEngineTypeV1, ?_, fun _ => rfl⟩
    simp only [stepDataEngine, hm]
  | some s =>
    refine ⟨s, ?_, fun hn => Option.noConfusion hn⟩
    simp only [stepDataEngine, hm]

theorem stepFromBackup_migratable (opts : StrMap) (vol : Volume) :
    (stepFromBackup opts vol).migratable = vol.migratable := by
  obtain ⟨t, q⟩ := stepFromBackup_shape opts vol
  rw [q]

theorem stepFromBackup_staleReplicaTimeout (opts : StrMap) (vol : Volume) :
    (stepFromBackup opts vol).staleReplicaTimeout = vol.staleReplicaTimeout := by
  obtain ⟨t, q⟩ := stepFromBackup_shape opts vol
  rw [q]

theorem stepFromBackup_revisionCounterDisabled (opts : StrMap) (vol : Volume) :
    (stepFromBackup opts vol).revisionCounterDisabled = vol.revisionCounterDisabled := by
  obtain ⟨t, q⟩ := stepFromBackup_shape opts vol
  rw [q]

theorem stepBackupTargetName_migratable (opts : StrMap) (vol : Volume) :
    (stepBackupTargetName opts vol).migratable = vol.migratable := by
  obtain ⟨t, q⟩ := stepBackupTargetName_shape opts vol
  rw [q]

theorem stepBackupTargetName_staleReplicaTimeout (opts : StrMap) (vol : Volume) :
    (stepBackupTargetName opts vol).staleReplicaTimeout = vol.staleReplicaTimeout := by
  obtain ⟨t, q⟩ := stepBackupTargetName_shape opts vol
  rw [q]

theorem stepBackupTargetName_revisionCounterDisabled (opts : StrMap) (vol : Volume) :
    (stepBackupTargetName opts vol).revisionCounterDisabled = vol.revisionCounterDisabled := by
  obtain ⟨t, q⟩ := stepBackupTargetName_shape opts vol
  rw [q]

theorem stepDataSource_migratable (opts : StrMap) (vol : Volume) :
    (stepDataSource opts vol).migratable = vol.migratable := by
  obtain ⟨t, q⟩ := stepDataSource_shape opts vol
  rw [q]

theorem stepDataSource_staleReplicaTimeout (opts : StrMap) (vol : Volume) :
    (stepDataSource opts vol).staleReplicaTimeout = vol.staleReplicaTimeout := by
  obtain ⟨t, q⟩ := stepDataSource_shape opts vol
  rw [q]

theorem stepDataSource_revisionCounterDisabled (opts : StrMap) (vol : Volume) :
    (stepDataSource opts vol).revisionCounterDisabled = vol.revisionCounterDisabled := by
  obtain ⟨t, q⟩ := stepDataSource_shape opts vol
  rw [q]

theorem stepBackingImage_migratable (opts : StrMap) (vol : Volume) :
    (stepBackingImage opts vol).migratable = vol.migratable := by
  obtain ⟨t, q⟩ := stepBackingImage_shape opts vol
  rw [q]

theorem stepBackingImage_staleReplicaTimeout (opts : StrMap) (vol : Volume) :
    (stepBackingImage opts vol).staleReplicaTimeout = vol.staleReplicaTimeout := by
  obtain ⟨t, q⟩ := stepBackingImage_shape opts vol
  rw [q]

theorem stepBackingImage_revisionCounterDisabled (opts : StrMap) (vol : Volume) :
    (stepBackingImage opts vol).revisionCounterDisabled = vol.revisionCounterDisabled := by
  obtain ⟨t, q⟩ := stepBackingImage_shape opts vol
  rw [q]

theorem stepDiskSelector_migratable (opts : StrMap) (vol : Volume) :
    (stepDiskSelector opts vol).migratable = vol.migratable := by
  obtain ⟨t, q⟩ := stepDiskSelector_shape opts vol
  rw [q]

theorem stepDiskSelector_staleReplicaTimeout (opts : StrMap) (vol : Volume) :
    (stepDiskSelector opts vol).staleReplicaTimeout = vol.staleReplicaTimeout := by
  obtain ⟨t, q⟩ := stepDiskSelector_shape opts vol
  rw [q]

theorem stepDiskSelector_revisionCounterDisabled (opts : StrMap) (vol : Volume) :
    (stepDiskSelector opts vol).revisionCounterDisabled = vol.revisionCounterDisabled := by
  obtain ⟨t, q⟩ := stepDiskSelector_shape opts vol
  rw [q]

theorem stepNodeSelector_migratable (opts : StrMap) (vol : Volume) :
    (stepNodeSelector opts vol).migratable = vol.migratable := by
  obtain ⟨t, q⟩ := stepNodeSelector_shape opts vol
  rw [q]

theorem stepNodeSelector_staleReplicaTimeout (opts : StrMap) (vol : Volume) :
    (stepNodeSelector opts vol).staleReplicaTimeout = vol.staleReplicaTimeout := by
  obtain ⟨t, q⟩ := stepNodeSelector_shape opts vol
  rw [q]

theorem stepNodeSelector_revisionCounterDisabled (opts : StrMap) (vol : Volume) :
    (stepNodeSelector opts vol).revisionCounterDisabled = vol.revisionCounterDisabled := by
  obtain ⟨t, q⟩ := stepNodeSelector_shape opts vol
  rw [q]

theorem stepDataEngine_migratable (opts : StrMap) (vol : Volume) :
    (stepDataEngine opts vol).migratable = vol.migratable := by
  obtain ⟨t, q, hd⟩ := stepDataEngine_shape opts vol
  rw [q]

theorem stepDataEngine_staleReplicaTimeout (opts : StrMap) (vol : Volume) :
    (stepDataEngine opts vol).staleReplicaTimeout = vol.staleReplicaTimeout := by
  obtain ⟨t, q, hd⟩ := stepDataEngine_shape opts vol
  rw [q]

theorem stepDataEngine_revisionCounterDisabled (opts : StrMap) (vol : Volume) :
    (stepDataEngine opts vol).revisionCounterDisabled = vol.revisionCounterDisabled := by
  obtain ⟨t, q, hd⟩ := stepDataEngine_shape opts vol
  rw [q]

theorem stepFrontend_migratable (opts : StrMap) (vol : Volume) :
    (stepFrontend opts vol).migratable = vol.migratable := by
  obtain ⟨t, q⟩ := stepFrontend_shape opts vol
  rw [q]

theorem stepFrontend_staleReplicaTimeout (opts : StrMap) (vol : Volume) :
    (stepFrontend opts vol).staleReplicaTimeout = vol.staleReplicaTimeout := by
  obtain ⟨t, q⟩ := stepFrontend_shape opts vol
  rw [q]

theorem stepFrontend_revisionCounterDisabled (opts : StrMap) (vol : Volume) :
    (stepFrontend opts vol).revisionCounterDisabled = vol.revisionCounterDisabled := by
  obtain ⟨t, q⟩ := stepFrontend_shape opts vol
  rw [q]

theorem stepFrontend_dataEngine (opts : StrMap) (vol : Volume) :
    (stepFrontend opts vol).dataEngine = vol.dataEngine := by
  obtain ⟨t, q⟩ := stepFrontend_shape opts vol
  rw [q]

theorem getVolumeOptionsE_ok_core {volumeID : String} {opts : StrMap}
    {ext : ExternalValidators} {vol : Volume}
    (h : getVolumeOptionsE volumeID opts ext = .ok vol) :
    ∃ v1 v2 v3,
      stepStaleReplicaTimeout opts {} = .ok v1 ∧
      stepShare opts v1 = .ok v2 ∧
      stepMigratable opts v2 = .ok v3 ∧
      vol.migratable = v3.migratable ∧
      vol.staleReplicaTimeout = v3.staleReplicaTimeout ∧
      (mapGet? opts "disableRevisionCounter" = none → vol.revisionCounterDisabled = true) ∧
      (mapGet? opts "dataEngine" = none → vol.dataEngine = DataEngineTypeV1) := by
  simp only [getVolumeOptionsE] at h
  cases h1 : stepStaleReplicaTimeout opts {} with
  | error e => simp only [h1, exceptBind_error] at h; exact Except.noConfusion h
  | ok v1 =>
  simp only [h1, exceptBind_ok] at h
  cases h2 : stepShare opts v1 with
  | error e => simp only [h2, exceptBind_error] at h; exact Except.noConfusion h
  | ok v2 =>
  simp only [h2, exceptBind_ok] at h
  cases h3 : stepMigratable opts v2 with
  | error e => simp only [h3, exceptBind_error] at h; exact Except.noConfusion h
  | ok v3 =>
  simp only [h3, exceptBind_ok] at h
  cases h4 : stepEncrypted opts v3 with
  | error e => simp only [h4, exceptBind_error] at h; exact Except.noConfusion h
  | ok v4 =>
  simp only [h4, exceptBind_ok] at h
  cases h5 : stepNumberOfReplicas opts v4 with
  | error e => simp only [h5, exceptBind_error] at h; exact Except.noConfusion h
  | ok v5 =>
  simp only [h5, exceptBind_ok] at h
  cases h6 : stepReplicaAutoBalance opts ext v5 with
  | error e => simp only [h6, exceptBind_error] at h; exact Except.noConfusion h
  | ok v6 =>
  simp only [h6, exceptBind_ok] at h
  cases h7 : stepDataLocality opts ext v6 with
  | error e => simp only [h7, exceptBind_error] at h; exact Except.noConfusion h
  | ok v7 =>
  simp only [h7, exceptBind_ok] at h
  cases h8 : stepRevisionCounter opts v7 with
  | error e => simp only [h8, exceptBind_error] at h; exact Except.noConfusion h
  | ok v8 =>
  simp only [h8, exceptBind_ok] at h
  cases h9 : stepUnmapMarkSnapChainRemoved opts ext v8 with
  | error e => simp only [h9, exceptBind_error] at h; exact Except.noConfusion h
  | ok v9 =>
  simp only [h9, exceptBind_ok] at h
  cases h10 : stepReplicaSoftAntiAffinity opts ext v9 with
  | error e => simp only [h10, exceptBind_error] at h; exact Except.noConfusion h
  | ok v10 =>
  simp only [h10, exceptBind_ok] at h
  cases h11 : stepReplicaZoneSoftAntiAffinity opts ext v10 with
  | error e => simp only [h11, exceptBind_error] at h; exact Except.noConfusion h
  | ok v11 =>
  simp only [h11, exceptBind_ok] at h
  cases h12 : stepReplicaDiskSoftAntiAffinity opts ext v11 with
  | error e => simp only [h12, exceptBind_error] at h; exact Except.noConfusion h
  | ok v12 =>
  simp only [h12, exceptBind_ok] at h
  cases h13 : stepRecurringJobSelector opts ext (stepBackingImage opts
      (stepDataSource opts (stepBackupTargetName opts (stepFromBackup opts v12)))) with
  | error e => simp only [h13, exceptBind_error] at h; exact Except.noConfusion h
  | ok v13 =>
  simp only [h13, exceptBind_ok] at h
  cases h14 : stepFreezeFilesystemForSnapshot opts ext (stepFrontend opts
      (stepDataEngine opts (stepNodeSelector opts (stepDiskSelector opts v13)))) with
  | error e => simp only [h14, exceptBind_error] at h; exact Except.noConfusion h
  | ok v14 =>
  simp only [h14, exceptBind_ok, pure, Except.pure, Except.ok.injEq] at h
  subst h
  obtain ⟨b4, e4⟩ := stepEncrypted_ok h4
  obtain ⟨n5, e5⟩ := stepNumberOfReplicas_ok h5
  obtain ⟨s6, e6⟩ := stepReplicaAutoBalance_ok h6
  obtain ⟨s7, e7⟩ := stepDataLocality_ok h7
  obtain ⟨b8, e8, hb8⟩ := stepRevisionCounter_ok h8
  obtain ⟨s9, e9⟩ := stepUnmapMarkSnapChainRemoved_ok h9
  obtain ⟨s10, e10⟩ := stepReplicaSoftAntiAffinity_ok h10
  obtain ⟨s11, e11⟩ := stepReplicaZoneSoftAntiAffinity_ok h11
  obtain ⟨s12, e12⟩ := stepReplicaDiskSoftAntiAffinity_ok h12
  obtain ⟨l13, e13⟩ := stepRecurringJobSelector_ok h13
  obtain ⟨sF, eF⟩ := stepFreezeFilesystemForSnapshot_ok h14
  refine ⟨v1, v2, v3, rfl, h2, h3, ?_, ?_, ?_, ?_⟩
  · simp only [eF, stepFrontend_migratable, stepDataEngine_migratable,
      stepNodeSelector_migratable, stepDiskSelector_migratable, e13,
      stepBackingImage_migratable, stepDataSource_migratable,
      stepBackupTargetName_migratable, stepFromBackup_migratable,
      e12, e11, e10, e9, e8, e7, e6, e5, e4]
  · simp only [eF, stepFrontend_staleReplicaTimeout, stepDataEngine_staleReplicaTimeout,
      stepNodeSelector_staleReplicaTimeout, stepDiskSelector_staleReplicaTimeout, e13,
      stepBackingImage_staleReplicaTimeout, stepDataSource_staleReplicaTimeout,
      stepBackupTargetName_staleReplicaTimeout, stepFromBackup_staleReplicaTimeout,
      e12, e11, e10, e9, e8, e7, e6, e5, e4]
  · intro hn
    simp only [eF, stepFrontend_revisionCounterDisabled, stepDataEngine_revisionCounterDisabled,
      stepNodeSelector_revisionCounterDisabled, stepDiskSelector_revisionCounterDisabled, e13,
      stepBackingImage_revisionCounterDisabled, stepDataSource_revisionCounterDisabled,
      stepBackupTargetName_revisionCounterDisabled, stepFromBackup_revisionCounterDisabled,
      e12, e11, e10, e9, e8]
    exact hb8 hn
  · intro hn
    obtain ⟨sD, qD, hdeD⟩ := stepDataEngine_shape opts
      (stepNodeSelector opts (stepDiskSelector opts v13))
    simp only [eF, stepFrontend_dataEngine, qD]
    exact hdeD hn

/-- C7: `requiresSharedAccess` returns true whenever the descriptor's access
mode is ReadWriteMany or its migratable flag is set, for every requested
capability, and also whenever the requested capability's access mode is
multi-node reader-only, multi-node single-writer or multi-node multi-writer. -/
theorem C7_requiresSharedAccess (vol : Volume) (volOpt : Option Volume)
    (cp : Option VolumeCapability) :
    ((vol.accessMode = AccessModeReadWriteMany ∨ vol.migratable = true) →
      requiresSharedAccess (some vol) cp = true) ∧
    (∀ c : VolumeCapability,
      (c.accessModeMode = CSIAccessModeMode.MULTI_NODE_READER_ONLY ∨
        c.accessModeMode = CSIAccessModeMode.MULTI_NODE_SINGLE_WRITER ∨
        c.accessModeMode = CSIAccessModeMode.MULTI_NODE_MULTI_WRITER) →
      requiresSharedAccess volOpt (some c) = true) := by
  constructor
  · intro hv
    unfold requiresSharedAccess
    rcases hv with hv | hv <;> simp [hv]
  · intro c hc
    unfold requiresSharedAccess
    rcases hc with hc | hc | hc <;> simp [hc]

/-- C7 witness: a ReadWriteMany volume with no requested capability, and a nil
volume with a multi-node multi-writer capability, both require shared
access. -/
theorem C7_requiresSharedAccess_witness :
    requiresSharedAccess (some { accessMode := AccessModeReadWriteMany }) none = true ∧
    requiresSharedAccess none (some ⟨CSIAccessModeMode.MULTI_NODE_MULTI_WRITER⟩) = true :=
  ⟨(C7_requiresSharedAccess { accessMode := AccessModeReadWriteMany } none none).1
      (Or.inl rfl),
    (C7_requiresSharedAccess {} none (some ⟨CSIAccessModeMode.MULTI_NODE_MULTI_WRITER⟩)).2
      ⟨CSIAccessModeMode.MULTI_NODE_MULTI_WRITER⟩ (Or.inr (Or.inr rfl))⟩

/-- C8: `unmount` performs a forced unmount with the 30-second default
timeout exactly when the mount backend supports forced unmount and a plain
unmount otherwise; an underlying error containing "not mounted" or
"no mount point specified" is treated as success (so a second call on an
already-unmounted path again returns no error), and every other underlying
error is returned verbatim. -/
theorem C8_unmount_idempotent_and_verbatim (env : UnmountEnv) :
    defaultForceUmountTimeoutSeconds = 30 ∧
    (env.supportsForceUnmount = true →
      unmountSyscall env = env.unmountWithForce defaultForceUmountTimeoutSeconds) ∧
    (env.supportsForceUnmount = false → unmountSyscall env = env.unmountPlain) ∧
    (unmountSyscall env = none → unmount env = none) ∧
    (∀ e, unmountSyscall env = some e →
      ((strContains e "not mounted" = true ∨ strContains e "no mount point specified" = true) →
        unmount env = none) ∧
      (strContains e "not mounted" = false → strContains e "no mount point specified" = false →
        unmount env = some e)) := by
  refine ⟨rfl, fun hf => ?_, fun hf => ?_, fun hn => ?_, fun e he => ⟨fun hor => ?_, fun h1 h2 => ?_⟩⟩
  · simp [unmountSyscall, hf]
  · simp [unmountSyscall, hf]
  · simp [unmount, hn]
  · unfold unmount
    rw [he]
    rcases hor with hc | hc <;> simp [hc]
  · unfold unmount
    rw [he]
    simp [h1, h2]

/-- C8 witness: a forced unmount reporting "not mounted" succeeds
(idempotently, twice); a plain unmount failing with "device is busy" returns
that error verbatim. -/
theorem C8_unmount_witness :
    unmount c8NotMountedEnv = none ∧ unmount c8NotMountedEnv = none ∧
    unmount c8BusyEnv = some "device is busy" := by
  refine ⟨?_, ?_, ?_⟩
  · exact ((C8_unmount_idempotent_and_verbatim c8NotMountedEnv).2.2.2.2
      "umount: /x: not mounted." (by rfl)).1 (Or.inl (by decide))
  · exact ((C8_unmount_idempotent_and_verbatim c8NotMountedEnv).2.2.2.2
      "umount: /x: not mounted." (by rfl)).1 (Or.inl (by decide))
  · exact ((C8_unmount_idempotent_and_verbatim c8BusyEnv).2.2.2.2
      "device is busy" (by rfl)).2 (by decide) (by decide)

/-- C3: for a path that does not exist, `ensureMountPoint` calls `MkdirAll`
with restrictive mode 0750 and reports not-mounted — never a healthy mount —
with no error when the creation succeeds. -/
theorem C3_absent_path_never_healthy (path : String) (env : MountEnv)
    (h : osIsNotExist env.isMountPoint.2 = true) :
    (ensureMountPoint path env).1 = false ∧
    (ensureMountPoint path env).2 = env.mkdirAll 0o750 ∧
    (env.mkdirAll 0o750 = none → ensureMountPoint path env = (false, none)) := by
  unfold ensureMountPoint
  simp only [h, if_true]
  exact ⟨trivial, trivial, fun hm => by rw [hm]⟩

/-- C3 witness: a concrete absent-path environment with succeeding directory
creation yields `(false, nil)`. -/
theorem C3_absent_path_witness :
    osIsNotExist c3AbsentEnv.isMountPoint.2 = true ∧
    ensureMountPoint "/mnt/new" c3AbsentEnv = (false, none) :=
  ⟨rfl, (C3_absent_path_never_healthy "/mnt/new" c3AbsentEnv rfl).2.2 rfl⟩

/-- C10: the claim and the function's own documentation say an existing
directory is reported as a no-op with `created = false`, but the code returns
`(true, nil)` for an existing directory — the same answer as for a fresh
creation; the not-a-directory case does fail with the descriptive error. -/
theorem C10_existing_directory_reports_created :
    ensureDirectory "/data" dirExistingEnv = (true, none) ∧
    ensureDirectory "/fresh" dirFreshEnv = (true, none) ∧
    ensureDirectory "/data/file" dirFileEnv =
      (false, some ⟨.generic, "path /data/file exists but is not a folder"⟩) :=
  ⟨rfl, rfl, rfl⟩

/-- C4: on the options map with only `numberOfReplicas = "-1"`, the parse
succeeds, the negativity guard fires, and `errors.Wrap(nil, ...)` returns nil,
so `getVolumeOptions` returns neither a descriptor nor an error — refuting the
claim that every recognized-key validation failure yields a non-nil wrapped
error. -/
theorem C4_negative_numberOfReplicas_nil_error :
    getVolumeOptions "vol-1" [("numberOfReplicas", "-1")] trivialValidators =
      (none, none) := by rfl

theorem wrap64_eq_self {z : Int} (h1 : -(2 ^ 63) ≤ z) (h2 : z < 2 ^ 63) :
    wrap64 z = z := by
  unfold wrap64
  have h0 : (0 : Int) ≤ z + 2 ^ 63 := by linarith
  have hlt : z + 2 ^ 63 < 2 ^ 64 := by
    have h64 : (2 : Int) ^ 64 = 2 ^ 63 + 2 ^ 63 := by norm_num
    linarith
  rw [Int.emod_eq_of_lt h0 hlt]
  ring

theorem toInt64_eq_self {n : Nat} (h : n < 2 ^ 63) : toInt64 n = n := by
  unfold toInt64
  have hn : ((n : Int)) < 2 ^ 63 := by exact_mod_cast h
  have h0 : (0 : Int) ≤ n := Int.natCast_nonneg n
  exact wrap64_eq_self (by linarith) hn

/-- C9: for every in-range statfs fixture, `getFilesystemStatistics` computes
usedBytes as (total blocks − free blocks) × block size — not total − available
— together with availableBytes = available blocks × block size, totalBytes =
total blocks × block size, and usedInodes = total inodes − free inodes. -/
theorem C9_getFilesystemStatistics (s : Statfs)
    (hBlocks : s.Blocks < 2 ^ 63) (hBfree : s.Bfree ≤ s.Blocks)
    (hBavail : s.Bavail ≤ s.Blocks) (hFiles : s.Files < 2 ^ 63)
    (hFfree : s.Ffree ≤ s.Files) (hBsize0 : 0 ≤ s.Bsize)
    (hTot : (s.Blocks : Int) * s.Bsize < 2 ^ 63) :
    getFilesystemStatistics (.ok s) = .ok
      { availableBytes := (s.Bavail : Int) * s.Bsize,
        totalBytes := (s.Blocks : Int) * s.Bsize,
        usedBytes := ((s.Blocks : Int) - (s.Bfree : Int)) * s.Bsize,
        availableInodes := (s.Ffree : Int),
        totalInodes := (s.Files : Int),
        usedInodes := (s.Files : Int) - (s.Ffree : Int) } := by
  have hBlocksI : (s.Blocks : Int) < 2 ^ 63 := by exact_mod_cast hBlocks
  have hFilesI : (s.Files : Int) < 2 ^ 63 := by exact_mod_cast hFiles
  have hBfreeI : (s.Bfree : Int) ≤ (s.Blocks : Int) := by exact_mod_cast hBfree
  have hBavailI : (s.Bavail : Int) ≤ (s.Blocks : Int) := by exact_mod_cast hBavail
  have hFfreeI : (s.Ffree : Int) ≤ (s.Files : Int) := by exact_mod_cast hFfree
  have hBfree0 : (0 : Int) ≤ s.Bfree := Int.natCast_nonneg _
  have hBavail0 : (0 : Int) ≤ s.Bavail := Int.natCast_nonneg _
  have hFfree0 : (0 : Int) ≤ s.Ffree := Int.natCast_nonneg _
  have cBlocks := toInt64_eq_self hBlocks
  have cBfree := toInt64_eq_self (lt_of_le_of_lt hBfree hBlocks)
  have cBavail := toInt64_eq_self (lt_of_le_of_lt hBavail hBlocks)
  have cFiles := toInt64_eq_self hFiles
  have cFfree := toInt64_eq_self (lt_of_le_of_lt hFfree hFiles)
  have hDiff0 : (0 : Int) ≤ (s.Blocks : Int) - s.Bfree := by linarith
  have hAvail0 : (0 : Int) ≤ (s.Bavail : Int) * s.Bsize := mul_nonneg hBavail0 hBsize0
  have hTot0 : (0 : Int) ≤ (s.Blocks : Int) * s.Bsize :=
    mul_nonneg (Int.natCast_nonneg _) hBsize0
  have hUsed0 : (0 : Int) ≤ ((s.Blocks : Int) - s.Bfree) * s.Bsize :=
    mul_nonneg hDiff0 hBsize0
  have hAvailLe : (s.Bavail : Int) * s.Bsize ≤ (s.Blocks : Int) * s.Bsize :=
    mul_le_mul_of_nonneg_right hBavailI hBsize0
  have hUsedLe : ((s.Blocks : Int) - s.Bfree) * s.Bsize ≤ (s.Blocks : Int) * s.Bsize :=
    mul_le_mul_of_nonneg_right (by linarith) hBsize0
  have wDiff : wrap64 ((s.Blocks : Int) - s.Bfree) = (s.Blocks : Int) - s.Bfree :=
    wrap64_eq_self (by linarith) (by linarith)
  have wAvail : wrap64 ((s.Bavail : Int) * s.Bsize) = (s.Bavail : Int) * s.Bsize :=
    wrap64_eq_self (by linarith) (lt_of_le_of_lt hAvailLe hTot)
  have wTot : wrap64 ((s.Blocks : Int) * s.Bsize) = (s.Blocks : Int) * s.Bsize :=
    wrap64_eq_self (by linarith) hTot
  have wUsed : wrap64 (((s.Blocks : Int) - s.Bfree) * s.Bsize) =
      ((s.Blocks : Int) - s.Bfree) * s.Bsize :=
    wrap64_eq_self (by linarith) (lt_of_le_of_lt hUsedLe hTot)
  have wInode : wrap64 ((s.Files : Int) - s.Ffree) = (s.Files : Int) - s.Ffree :=
    wrap64_eq_self (by linarith) (by linarith)
  simp only [getFilesystemStatistics, cBlocks, cBfree, cBavail, cFiles, cFfree,
    wDiff, wUsed, wAvail, wTot, wInode]

/-- C9 witness: the fixture Bsize 4096, Blocks 1000, Bfree 200, Bavail 150,
Files 100, Ffree 40 yields usedBytes 800 × 4096 = 3276800, which differs from
totalBytes − availableBytes = 850 × 4096. -/
theorem C9_getFilesystemStatistics_witness :
    getFilesystemStatistics (.ok c9Statfs) = .ok
      { availableBytes := 614400, totalBytes := 4096000, usedBytes := 3276800,
        availableInodes := 40, totalInodes := 100, usedInodes := 60 } ∧
    (3276800 : Int) ≠ 4096000 - 614400 := by
  constructor
  · have h := C9_getFilesystemStatistics c9Statfs (by norm_num [c9Statfs])
      (by norm_num [c9Statfs]) (by norm_num [c9Statfs]) (by norm_num [c9Statfs])
      (by norm_num [c9Statfs]) (by norm_num [c9Statfs]) (by norm_num [c9Statfs])
    rw [h]
    norm_num [c9Statfs]
  · decide

/-- C2: for every options map whose migratable value parses to true while the
share option resolves the access mode to something other than ReadWriteMany
(share absent or parsing to false), any descriptor `getVolumeOptions` returns
has migratable = false, and the returned error is nil. -/
theorem C2_migratable_downgrade {volumeID : String} {opts : StrMap}
    {ext : ExternalValidators} {vol : Volume} {err : Option String} {ms : String}
    (hmig : mapGet? opts "migratable" = some ms)
    (hparse : goParseBool ms = (true, none))
    (hshare : mapGet? opts "share" = none ∨
      ∃ ss, mapGet? opts "share" = some ss ∧ goParseBool ss = (false, none))
    (hres : getVolumeOptions volumeID opts ext = (some vol, err)) :
    vol.migratable = false ∧ err = none := by
  unfold getVolumeOptions at hres
  cases hE : getVolumeOptionsE volumeID opts ext with
  | error e =>
    rw [hE] at hres
    rw [Prod.mk.injEq] at hres
    exact Option.noConfusion hres.1
  | ok v =>
    rw [hE] at hres
    rw [Prod.mk.injEq] at hres
    obtain ⟨hv, he⟩ := hres
    rw [Option.some.injEq] at hv
    subst hv
    refine ⟨?_, he.symm⟩
    obtain ⟨v1, v2, v3, H1, H2, H3, M, _, _, _⟩ := getVolumeOptionsE_ok_core hE
    obtain ⟨n1, E1, _, _⟩ := stepStaleReplicaTimeout_ok H1
    obtain ⟨a2, E2, hAbs, hFalse⟩ := stepShare_ok H2
    obtain ⟨b3, E3, hdown⟩ := stepMigratable_ok H3
    have hacc : v2.accessMode ≠ AccessModeReadWriteMany := by
      rcases hshare with hnone | ⟨ss, hss, hpf⟩
      · simp only [E2, hAbs hnone, E1]
        decide
      · simp only [E2, hFalse ss hss hpf]
        decide
    rw [M, E3]
    exact hdown ms hmig hparse hacc

/-- C2 witness: resolving the map with only migratable = "true" (share absent,
so single-writer) succeeds with a descriptor whose migratable flag is
false. -/
theorem C2_migratable_downgrade_witness :
    (getVolumeOptions "vol-1" [("migratable", "true")] trivialValidators).1.map
      Volume.migratable = some false ∧
    (getVolumeOptions "vol-1" [("migratable", "true")] trivialValidators).2 = none := by
  have hres : getVolumeOptions "vol-1" [("migratable", "true")] trivialValidators =
      (some { staleReplicaTimeout := 2880, revisionCounterDisabled := true,
              dataEngine := "v1" }, none) := by rfl
  have hmain := @C2_migratable_downgrade "vol-1" [("migratable", "true")]
    trivialValidators _ none "true" (by rfl) (by rfl) (Or.inl (by rfl)) hres
  rw [hres]
  exact ⟨congrArg some hmain.1, rfl⟩

/-- C5: any descriptor returned by `getVolumeOptions` carries the named
defaults: staleReplicaTimeout = 2880 when the key is absent or parses to a
non-positive integer, revisionCounterDisabled = true when the
disableRevisionCounter key is absent, and dataEngine = "v1" when the
dataEngine key is absent. -/
theorem C5_named_defaults {volumeID : String} {opts : StrMap}
    {ext : ExternalValidators} {vol : Volume} {err : Option String}
    (hres : getVolumeOptions volumeID opts ext = (some vol, err)) :
    (mapGet? opts "staleReplicaTimeout" = none → vol.staleReplicaTimeout = 2880) ∧
    (∀ s, mapGet? opts "staleReplicaTimeout" = some s → (goAtoi s).2 = none →
      (goAtoi s).1 ≤ 0 → vol.staleReplicaTimeout = 2880) ∧
    (mapGet? opts "disableRevisionCounter" = none → vol.revisionCounterDisabled = true) ∧
    (mapGet? opts "dataEngine" = none → vol.dataEngine = DataEngineTypeV1) := by
  unfold getVolumeOptions at hres
  cases hE : getVolumeOptionsE volumeID opts ext with
  | error e =>
    rw [hE] at hres
    rw [Prod.mk.injEq] at hres
    exact Option.noConfusion hres.1
  | ok v =>
    rw [hE] at hres
    rw [Prod.mk.injEq] at hres
    obtain ⟨hv, he⟩ := hres
    rw [Option.some.injEq] at hv
    subst hv
    obtain ⟨v1, v2, v3, H1, H2, H3, _, S, R, D⟩ := getVolumeOptionsE_ok_core hE
    obtain ⟨n1, E1, habs, hnonpos⟩ := stepStaleReplicaTimeout_ok H1
    obtain ⟨a2, E2, _, _⟩ := stepShare_ok H2
    obtain ⟨b3, E3, _⟩ := stepMigratable_ok H3
    have hs : v.staleReplicaTimeout = n1 := by
      simp only [S, E3, E2, E1]
    refine ⟨fun hn => ?_, fun s hsome hok hle => ?_, R, D⟩
    · rw [hs, habs hn (by decide)]
      rfl
    · rw [hs, hnonpos s hsome hok hle]
      rfl

/-- C5 witness: resolving the map with only staleReplicaTimeout = "0" (all
other keys absent) yields staleReplicaTimeout 2880, revisionCounterDisabled
true and dataEngine "v1". -/
theorem C5_named_defaults_witness :
    (getVolumeOptions "vol-1" [("staleReplicaTimeout", "0")] trivialValidators).1.map
      Volume.staleReplicaTimeout = some 2880 ∧
    (getVolumeOptions "vol-1" [("staleReplicaTimeout", "0")] trivialValidators).1.map
      Volume.revisionCounterDisabled = some true ∧
    (getVolumeOptions "vol-1" [("staleReplicaTimeout", "0")] trivialValidators).1.map
      Volume.dataEngine = some DataEngineTypeV1 := by
  have hres : getVolumeOptions "vol-1" [("staleReplicaTimeout", "0")] trivialValidators =
      (some { staleReplicaTimeout := 2880, revisionCounterDisabled := true,
              dataEngine := "v1" }, none) := by rfl
  have hmain := @C5_named_defaults "vol-1" [("staleReplicaTimeout", "0")]
    trivialValidators _ none hres
  have h1 := hmain.2.1 "0" (by rfl) (by rfl) (by decide)
  have h2 := hmain.2.2.1 (by rfl)
  have h3 := hmain.2.2.2 (by rfl)
  rw [hres]
  exact ⟨congrArg some h1, congrArg some h2, congrArg some h3⟩

/-- C1 counterexample: with a healthy mount-table check (nil error), an I/O
probe failing with "input/output error", and a forced unmount failing with
"target is busy", `ensureMountPoint` returns an error embedding the unmount
failure but NOT the probe's corruption evidence — the embedded eval error is
the mount-table check's nil error, printed "<nil>". -/
theorem C1_probe_error_not_embedded :
    syncMountPointDirectory c1Env.sync = some "input/output error" ∧
    ensureMountPoint "/mnt/vol" c1Env = (false, some ⟨.generic, c1ErrMsg⟩) ∧
    strContains c1ErrMsg "input/output error" = false := by
  refine ⟨rfl, rfl, by decide⟩

/-- C1 amended: when the path exists and either the mount-table check flags
corruption or the I/O health probe fails, `ensureMountPoint` unmounts the
path and returns (not mounted, nil error) when the unmount succeeds; when the
unmount fails it returns an error embedding the unmount failure together with
the mount-table check's error (a probe failure is only logged, so when
corruption was detected by the probe alone the embedded eval error is the
table check's error, possibly nil). -/
theorem C1_corrupt_mount_recovery (path : String) (env : MountEnv)
    (hne : osIsNotExist env.isMountPoint.2 = false)
    (hcor : isCorruptedMnt env.isMountPoint.2 = true ∨
      (syncMountPointDirectory env.sync).isSome = true) :
    (unmount env.unmountEnv = none → ensureMountPoint path env = (false, none)) ∧
    (∀ ue, unmount env.unmountEnv = some ue → ensureMountPoint path env =
      (false, some ⟨.generic, "failed to unmount corrupt mount point " ++ path ++
        " umount error: " ++ ue ++ " eval error: " ++ errText env.isMountPoint.2⟩)) := by
  have hcorrupt1 : (if !(isCorruptedMnt env.isMountPoint.2) then
      (syncMountPointDirectory env.sync).isSome
    else isCorruptedMnt env.isMountPoint.2) = true := by
    cases hc : isCorruptedMnt env.isMountPoint.2
    · simp only [Bool.not_false, if_true]
      rcases hcor with h | h
      · rw [hc] at h
        exact Bool.noConfusion h
      · exact h
    · simp
  unfold ensureMountPoint
  simp only [hne, Bool.false_eq_true, if_false, hcorrupt1, if_true]
  constructor
  · intro hu
    rw [hu]
  · intro ue hu
    rw [hu]

/-- C1 witness: in the probe-failure environment, the path exists, the probe
fails, the unmount fails with "target is busy", and the returned error is the
formatted message with eval error "<nil>". -/
theorem C1_corrupt_mount_recovery_witness :
    osIsNotExist c1Env.isMountPoint.2 = false ∧
    (syncMountPointDirectory c1Env.sync).isSome = true ∧
    unmount c1Env.unmountEnv = some "target is busy" ∧
    ensureMountPoint "/mnt/vol" c1Env = (false, some ⟨.generic, c1ErrMsg⟩) := by
  refine ⟨rfl, rfl, rfl, ?_⟩
  have h := (C1_corrupt_mount_recovery "/mnt/vol" c1Env rfl (Or.inr rfl)).2
    "target is busy" rfl
  rw [h]
  rfl

theorem mapGet?_append (m1 m2 : StrMap) (k : String) :
    mapGet? (m1 ++ m2) k =
      match mapGet? m1 k with
      | some v => some v
      | none => mapGet? m2 k := by
  induction m1 with
  | nil => rfl
  | cons p rest ih =>
    obtain ⟨a, b⟩ := p
    simp only [List.cons_append, mapGet?]
    by_cases ha : a = k
    · simp [ha]
    · simp only [beq_iff_eq, ha, if_false]
      exact ih

theorem mapGet?_mapDelete_self (m : StrMap) (key : String) :
    mapGet? (mapDelete m key) key = none := by
  induction m with
  | nil => rfl
  | cons p rest ih =>
    obtain ⟨a, b⟩ := p
    unfold mapDelete at *
    by_cases ha : a = key
    · subst ha
      simpa [List.filter_cons] using ih
    · simpa [List.filter_cons, ha, mapGet?] using ih

theorem mapGet?_mapDelete_other (m : StrMap) (key k : String) (h : k ≠ key) :
    mapGet? (mapDelete m key) k = mapGet? m k := by
  induction m with
  | nil => rfl
  | cons p rest ih =>
    obtain ⟨a, b⟩ := p
    unfold mapDelete at *
    by_cases ha : a = key
    · subst ha
      have hak : ¬(a = k) := fun hk => h (hk.symm)
      simpa [List.filter_cons, mapGet?, hak] using ih
    · by_cases hak : a = k
      · simp [List.filter_cons, ha, mapGet?, hak, h]
      · simpa [List.filter_cons, ha, mapGet?, hak] using ih

theorem mapGet?_mapSet_self (m : StrMap) (key v : String) :
    mapGet? (mapSet m key v) key = some v := by
  unfold mapSet
  rw [mapGet?_append]
  rw [mapGet?_mapDelete_self]
  simp [mapGet?]

theorem mapGet?_mapSet_other (m : StrMap) (key v k : String) (h : k ≠ key) :
    mapGet? (mapSet m key v) k = mapGet? m k := by
  unfold mapSet
  rw [mapGet?_append]
  rw [mapGet?_mapDelete_other m key k h]
  cases hm : mapGet? m k with
  | some x => rfl
  | none =>
    have hk : ¬(key = k) := fun hk => h (hk.symm)
    simp [mapGet?, hk]

theorem mapGet_mapDelete_other (m : StrMap) (key k : String) (h : k ≠ key) :
    mapGet (mapDelete m key) k = mapGet m k := by
  unfold mapGet
  rw [mapGet?_mapDelete_other m key k h]

/-- C6: the backing-image folding lifts exactly the three backing-image info
keys from the backing-image map into the volume-parameter map (removing them
from the backing-image map), attaches the JSON serialization of exactly the
remaining backing-image map under the data-source-parameters key, and leaves
every other volume-parameter key untouched; no lifted key remains in the map
the JSON blob is built from. -/
theorem C6_backingImageFolding (vp bp : StrMap) :
    mapGet? (updateVolumeParamsForBackingImage vp bp).1 BackingImageParameterName =
      some (mapGet bp BackingImageParameterName) ∧
    mapGet? (updateVolumeParamsForBackingImage vp bp).1 BackingImageParameterDataSourceType =
      some (mapGet bp BackingImageParameterDataSourceType) ∧
    mapGet? (updateVolumeParamsForBackingImage vp bp).1 BackingImageParameterChecksum =
      some (mapGet bp BackingImageParameterChecksum) ∧
    mapGet? (updateVolumeParamsForBackingImage vp bp).2 BackingImageParameterName = none ∧
    mapGet? (updateVolumeParamsForBackingImage vp bp).2 BackingImageParameterDataSourceType = none ∧
    mapGet? (updateVolumeParamsForBackingImage vp bp).2 BackingImageParameterChecksum = none ∧
    mapGet? (updateVolumeParamsForBackingImage vp bp).1 BackingImageParameterDataSourceParameters =
      some (marshalStringMap (updateVolumeParamsForBackingImage vp bp).2) ∧
    (∀ k, k ≠ BackingImageParameterName → k ≠ BackingImageParameterDataSourceType →
      k ≠ BackingImageParameterChecksum → k ≠ BackingImageParameterDataSourceParameters →
      mapGet? (updateVolumeParamsForBackingImage vp bp).1 k = mapGet? vp k) ∧
    (∀ k, k ≠ BackingImageParameterName → k ≠ BackingImageParameterDataSourceType →
      k ≠ BackingImageParameterChecksum →
      mapGet? (updateVolumeParamsForBackingImage vp bp).2 k = mapGet? bp k) := by
  have hN_T : BackingImageParameterName ≠ BackingImageParameterDataSourceType := by decide
  have hN_C : BackingImageParameterName ≠ BackingImageParameterChecksum := by decide
  have hN_P : BackingImageParameterName ≠ BackingImageParameterDataSourceParameters := by decide
  have hT_C : BackingImageParameterDataSourceType ≠ BackingImageParameterChecksum := by decide
  have hT_P : BackingImageParameterDataSourceType ≠ BackingImageParameterDataSourceParameters := by decide
  have hC_P : BackingImageParameterChecksum ≠ BackingImageParameterDataSourceParameters := by decide
  simp only [updateVolumeParamsForBackingImage, backingImageInfoFields,
    List.foldl_cons, List.foldl_nil, liftBackingImageField]
  refine ⟨?_, ?_, ?_, ?_, ?_, ?_, ?_, ?_, ?_⟩
  · rw [mapGet?_mapSet_other _ _ _ _ hN_P, mapGet?_mapSet_other _ _ _ _ hN_C,
      mapGet?_mapSet_other _ _ _ _ hN_T, mapGet?_mapSet_self]
  · rw [mapGet?_mapSet_other _ _ _ _ hT_P, mapGet?_mapSet_other _ _ _ _ hT_C,
      mapGet?_mapSet_self, mapGet_mapDelete_other _ _ _ (Ne.symm hN_T)]
  · rw [mapGet?_mapSet_other _ _ _ _ hC_P, mapGet?_mapSet_self,
      mapGet_mapDelete_other _ _ _ (Ne.symm hT_C),
      mapGet_mapDelete_other _ _ _ (Ne.symm hN_C)]
  · rw [mapGet?_mapDelete_other _ _ _ hN_C, mapGet?_mapDelete_other _ _ _ hN_T,
      mapGet?_mapDelete_self]
  · rw [mapGet?_mapDelete_other _ _ _ hT_C, mapGet?_mapDelete_self]
  · rw [mapGet?_mapDelete_self]
  · rw [mapGet?_mapSet_self]
  · intro k h1 h2 h3 h4
    rw [mapGet?_mapSet_other _ _ _ _ h4, mapGet?_mapSet_other _ _ _ _ h3,
      mapGet?_mapSet_other _ _ _ _ h2, mapGet?_mapSet_other _ _ _ _ h1]
  · intro k h1 h2 h3
    rw [mapGet?_mapDelete_other _ _ _ h3, mapGet?_mapDelete_other _ _ _ h2,
      mapGet?_mapDelete_other _ _ _ h1]

/-- C6 witness: folding the backing-image map with name "img1" and one extra
key "foo" lifts the name, removes it from the backing-image map, serializes
the remainder as a one-entry JSON object, and leaves the unrelated
volume-parameter key "k" untouched. -/
theorem C6_backingImageFolding_witness :
    mapGet? (updateVolumeParamsForBackingImage [("k", "v")]
      [(BackingImageParameterName, "img1"), ("foo", "bar")]).1
      BackingImageParameterName = some "img1" ∧
    mapGet? (updateVolumeParamsForBackingImage [("k", "v")]
      [(BackingImageParameterName, "img1"), ("foo", "bar")]).1
      BackingImageParameterDataSourceParameters =
        some "\x7b\x22foo\x22:\x22bar\x22\x7d" ∧
    mapGet? (updateVolumeParamsForBackingImage [("k", "v")]
      [(BackingImageParameterName, "img1"), ("foo", "bar")]).2
      BackingImageParameterName = none ∧
    mapGet? (updateVolumeParamsForBackingImage [("k", "v")]
      [(BackingImageParameterName, "img1"), ("foo", "bar")]).1 "k" = some "v" := by
  obtain ⟨hA1, hA2, hA3, hB1, hB2, hB3, hC, hD, hE⟩ :=
    C6_backingImageFolding [("k", "v")] [(BackingImageParameterName, "img1"), ("foo", "bar")]
  refine ⟨?_, ?_, ?_, ?_⟩
  · rw [hA1]
    rfl
  · rw [hC]
    rfl
  · exact hB1
  · rw [hD "k" (by decide) (by decide) (by decide) (by decide)]
    rfl
